import Mathlib

/-!
Verification of the WFL documentation-examples validation pipeline
(`scripts/validate_docs_examples.py`).

The script is shallowly embedded: every function below mirrors one Python
function of the source.  External effects (subprocess runs, the filesystem,
the wall clock, `datetime` parsing) are abstracted into explicit environment
records (`FileEnv`, `World`) that supply the outcomes the Python code would
observe; the decision logic itself is translated line by line.

Conventions of the embedding:
* Python's `re.search(pattern, msg, re.IGNORECASE)` is modelled by a small
  regular-expression engine (Brzozowski derivatives) over parsed pattern
  ASTs; case-insensitivity is modelled by lowering both the pattern's
  literal characters and the subject string, which agrees with `IGNORECASE`
  for the literal-character patterns the manifest uses.
* Wall-clock durations (`time.time()` differences) are abstracted to a
  per-file `elapsedMs : Nat` supplied by the environment.
* `datetime.fromisoformat` is abstracted to `fromiso : String → Option Int`
  (epoch seconds; `none` models `ValueError`), and `timedelta.days` is
  `Int.fdiv _ 86400`, Python's floor division.
* Path relativisation (`Path.relative_to`) is modelled as the identity on
  the manifest's relative-path keys, which is what it computes for the
  corpus layout the script assumes.
* Python's `UnboundLocalError` (reachable in `validate_example` because
  `result_layers` is initialised only inside the `1 in layers_to_validate`
  branch) is modelled by carrying `Option (List Nat)` for that local and
  raising `PyErr.unboundLocal` where Python would raise.
-/

/-- Model of a Python exception escaping `validate_example`. -/
inductive PyErr where
  | unboundLocal
deriving DecidableEq, Repr

/-! ## String helpers

Structurally recursive models of the Python string methods the script uses
(`str.strip`, `str.replace`, `str.startswith`, slicing), written over the
character list so that they evaluate by kernel reduction. -/

/-- The whitespace characters `str.strip()` removes. -/
def pySpace (c : Char) : Bool :=
  c = ' ' || c = '\t' || c = '\n' || c = '\r' || c = '\x0b' || c = '\x0c'

/-- Python `s.strip()`: drop leading and trailing whitespace. -/
def pyStrip (s : String) : String :=
  ⟨((s.data.dropWhile pySpace).reverse.dropWhile pySpace).reverse⟩

/-- Fuel-indexed worker for `pyReplace`; the fuel is the subject length. -/
def replaceAux (sub pat : List Char) : Nat → List Char → List Char
  | 0, s => s
  | _ + 1, [] => []
  | fuel + 1, c :: rest =>
      if pat ≠ [] ∧ pat.isPrefixOf (c :: rest) then
        sub ++ replaceAux sub pat fuel ((c :: rest).drop pat.length)
      else
        c :: replaceAux sub pat fuel rest

/-- Python `s.replace(pat, sub)` (all occurrences, left to right). -/
def pyReplace (s pat sub : String) : String :=
  ⟨replaceAux sub.data pat.data s.data.length s.data⟩

/-- Python `s.startswith(pre)`. -/
def pyStartswith (s pre : String) : Bool :=
  pre.data.isPrefixOf s.data

/-- Python `s[:n]` (by characters). -/
def pySlice (s : String) (n : Nat) : String :=
  ⟨s.data.take n⟩

/-- Python `s.lower()` (on the ASCII diagnostics the toolchain emits). -/
def pyLower (s : String) : List Char :=
  s.data.map Char.toLower

/-! ## Regular-expression engine: model of `re.search` with `re.IGNORECASE` -/

/-- Pattern ASTs, the image of Python's `re.compile` on the fragment the
manifest uses (literals, alternation, concatenation, repetition, `.`). -/
inductive Regex where
  | fail
  | eps
  | lit (c : Char)
  | anychar
  | cat (r s : Regex)
  | alt (r s : Regex)
  | star (r : Regex)
deriving DecidableEq, Repr

/-- Does the pattern accept the empty string? -/
def Regex.nullable : Regex → Bool
  | .fail => false
  | .eps => true
  | .lit _ => false
  | .anychar => false
  | .cat r s => r.nullable && s.nullable
  | .alt r s => r.nullable || s.nullable
  | .star _ => true

/-- Brzozowski derivative of a pattern by one character. -/
def Regex.deriv : Regex → Char → Regex
  | .fail, _ => .fail
  | .eps, _ => .fail
  | .lit c, a => if a = c then .eps else .fail
  | .anychar, _ => .eps
  | .cat r s, a => if r.nullable then .alt (.cat (r.deriv a) s) (s.deriv a) else .cat (r.deriv a) s
  | .alt r s, a => .alt (r.deriv a) (s.deriv a)
  | .star r, a => .cat (r.deriv a) (.star r)

/-- Does the pattern match some prefix of the character list? -/
def Regex.matchesAtStart : Regex → List Char → Bool
  | r, [] => r.nullable
  | r, c :: cs => r.nullable || (r.deriv c).matchesAtStart cs

/-- `re.search` semantics: does the pattern match a substring starting at
some position? -/
def Regex.search : Regex → List Char → Bool
  | r, [] => r.nullable
  | r, c :: cs => r.matchesAtStart (c :: cs) || r.search cs

/-- Lower-case every literal character of a pattern (the pattern half of
the `IGNORECASE` model). -/
def Regex.lower : Regex → Regex
  | .fail => .fail
  | .eps => .eps
  | .lit c => .lit c.toLower
  | .anychar => .anychar
  | .cat r s => .cat r.lower s.lower
  | .alt r s => .alt r.lower s.lower
  | .star r => .star r.lower

/-- The pattern matching exactly the literal string `s`. -/
def litRegex (s : String) : Regex :=
  s.data.foldr (fun c r => Regex.cat (Regex.lit c) r) Regex.eps

/-- Model of `validate_expected_error`: case-insensitive regular-expression
search (not a full match) of the pattern in the error message.  Patterns are
given as parsed ASTs, so Python's `re.error` branch (syntactically invalid
pattern, degrading to "never matches") has no representative here. -/
def validate_expected_error (errorMessage : String) (pat : Regex) : Bool :=
  pat.lower.search (pyLower errorMessage)

/-! ## Data model: manifest entries, results, cache -/

/-- Model of one manifest entry, with the same defaults the Python `get`
calls apply.  `expected_error_pattern` is the parsed pattern;
`none` models an absent key (Python defaults it to `''`, which as a pattern
matches everywhere). -/
structure ManifestEntry where
  validate_layers : List Nat := [1, 2, 3, 4, 5]
  type : String := "executable"
  expected_failure_layer : Option Nat := none
  expected_error_pattern : Option Regex := none
  timeout_seconds : Nat := 30
  expected_exit_code : Int := 0
  skip_execution : Bool := false
deriving DecidableEq, Repr

/-- The pattern `validate_example` actually uses:
`manifest_entry.get('expected_error_pattern', '')`. -/
def patOf (entry : ManifestEntry) : Regex :=
  entry.expected_error_pattern.getD (litRegex "")

/-- Model of `ValidationResult` (the `warnings` field is never populated by
the script and is omitted; the float `execution_time_ms` is abstracted to
`Nat` milliseconds). -/
structure VResult where
  file_path : String
  success : Bool
  layer : Nat
  error : Option String := none
  layers_passed : List Nat := []
  execution_time_ms : Nat := 0
deriving DecidableEq, Repr

/-- Model of one cache-file entry; the structure defaults coincide with the
`dict.get(_, default)` reads of the source. -/
structure CacheEntry where
  content_hash : String := ""
  last_validated : String := ""
  validation_result : String := ""
  validation_time_ms : Nat := 0
  layers_passed : List Nat := []
deriving DecidableEq, Repr

/-- Model of the cache file (`validation_cache.json`). -/
structure Cache where
  files : List (String × CacheEntry) := []
  wfl_version : Option String := none
  last_full_validation : Option String := none
deriving DecidableEq, Repr

/-- First-match association-list lookup: Python `dict` indexing on the
(unique-keyed) JSON objects the script reads. -/
def lookupStr {α : Type} : List (String × α) → String → Option α
  | [], _ => none
  | (k, v) :: rest, key => if k = key then some v else lookupStr rest key

/-- Python `dict` assignment on an insertion-ordered association list:
overwrite in place if the key exists, else append. -/
def setAssoc {α : Type} (l : List (String × α)) (key : String) (v : α) :
    List (String × α) :=
  if l.any (fun kv => kv.1 = key) then
    l.map (fun kv => if kv.1 = key then (key, v) else kv)
  else l ++ [(key, v)]

/-! ## Environments: what the external world answers -/

/-- Outcome of one `subprocess.run` call, as the adapter observes it. -/
inductive ProcResult where
  | completed (returncode : Int) (stdout stderr : String)
  | timeout
  | exn (msg : String)
deriving DecidableEq, Repr

/-- Per-file external observations for one run of `validate_example`. -/
structure FileEnv where
  readError : Option String := none
  parseProc : ProcResult := .completed 0 "" ""
  analyzeProc : ProcResult := .completed 0 "" ""
  lintProc : ProcResult := .completed 0 "" ""
  execProc : ProcResult := .completed 0 "" ""
  elapsedMs : Nat := 0
deriving DecidableEq, Repr

/-- The release-build binary path the script resolves (non-Windows spelling;
on Windows only the `.exe` suffix differs). -/
def wflBinary : String := "target/release/wfl"

/-- Model of `validate_with_cli`: binary-existence check, then the
returncode / timeout / exception protocol of `subprocess.run`. -/
def validate_with_cli (binaryExists : Bool) (proc : ProcResult)
    (command filePath : String) : Bool × Option String :=
  if binaryExists = false then
    (false, some ("WFL binary not found at " ++ wflBinary ++
      ". Run 'cargo build --release' first."))
  else
    match proc with
    | .completed rc out err =>
        if rc = 0 then (true, none)
        else (false, some (pyStrip (if err ≠ "" then err else out)))
    | .timeout => (false, some ("Timeout running " ++ command ++ " on " ++ filePath))
    | .exn m => (false, some ("Error running " ++ command ++ ": " ++ m))

/-- Model of `execute_wfl_file`: `(exit_code, stdout, stderr)`. -/
def execute_wfl_file (binaryExists : Bool) (proc : ProcResult)
    (filePath : String) (timeoutSeconds : Nat) : Int × String × String :=
  if binaryExists = false then
    (-1, "", "WFL binary not found at " ++ wflBinary)
  else
    match proc with
    | .completed rc out err => (rc, out, err)
    | .timeout => (-1, "", "Execution timeout (" ++ toString timeoutSeconds ++ "s)")
    | .exn m => (-1, "", "Execution error: " ++ m)

/-! ## The layer executor: `validate_example`

The Python function is a straight-line sequence of per-layer blocks, each of
which either returns a final `ValidationResult`, raises
`UnboundLocalError`, or continues with the (possibly still unassigned)
local `result_layers`.  Each block is one `layerN` definition over the
running state `Option (List Nat) × List Nat`: the first component is
`result_layers` (`none` = not yet assigned), the second is instrumentation
recording which layers performed an external tool invocation. -/

/-- One step of the executor: a raised exception, a final result (paired
with the invocation record), or the running state. -/
abbrev Step := Except PyErr ((VResult × List Nat) ⊕ (Option (List Nat) × List Nat))

/-- Sequencing of executor blocks: exceptions and final results
short-circuit; otherwise the next block runs on the state. -/
def thenStep (x : Step) (f : Option (List Nat) × List Nat → Step) : Step :=
  match x with
  | .error e => .error e
  | .ok (.inl fin) => .ok (.inl fin)
  | .ok (.inr st) => f st

@[simp] theorem thenStep_error (e : PyErr) (f : Option (List Nat) × List Nat → Step) :
    thenStep (.error e) f = .error e := rfl

@[simp] theorem thenStep_inl (fin : VResult × List Nat) (f : Option (List Nat) × List Nat → Step) :
    thenStep (.ok (.inl fin)) f = .ok (.inl fin) := rfl

@[simp] theorem thenStep_inr (st : Option (List Nat) × List Nat) (f : Option (List Nat) × List Nat → Step) :
    thenStep (.ok (.inr st)) f = f st := rfl

/-- Layer 1 (Parse).  On adapter failure: expected-failure reconciliation
when the entry is an `error_example` with `expected_failure_layer == 1`,
else a `Failed` result; on success `result_layers = [1]` (first
assignment of the local). -/
def layer1 (bex : Bool) (fe : FileEnv) (path : String) (entry : ManifestEntry)
    (st : Option (List Nat) × List Nat) : Step :=
  if 1 ∈ entry.validate_layers then
    let pr := validate_with_cli bex fe.parseProc "parse" path
    let inv := st.2 ++ [1]
    if pr.1 = true then
      .ok (.inr (some [1], inv))
    else
      if entry.type = "error_example" ∧ entry.expected_failure_layer = some 1 ∧
          validate_expected_error (pr.2.getD "") (patOf entry) = true then
        .ok (.inl ({ file_path := path, success := true, layer := 1,
                     execution_time_ms := fe.elapsedMs }, inv))
      else
        .ok (.inl ({ file_path := path, success := false, layer := 1, error := pr.2,
                     execution_time_ms := fe.elapsedMs }, inv))
  else .ok (.inr st)

/-- Layer 2 (Semantic Analysis).  As layer 1, but both the reconciliation
and failure paths read `result_layers` (raising if it is unbound), and the
success path appends to it. -/
def layer2 (bex : Bool) (fe : FileEnv) (path : String) (entry : ManifestEntry)
    (st : Option (List Nat) × List Nat) : Step :=
  if 2 ∈ entry.validate_layers then
    let pr := validate_with_cli bex fe.analyzeProc "analyze" path
    let inv := st.2 ++ [2]
    if pr.1 = true then
      match st.1 with
      | none => .error .unboundLocal
      | some ls => .ok (.inr (some (ls ++ [2]), inv))
    else
      if entry.type = "error_example" ∧ entry.expected_failure_layer = some 2 ∧
          validate_expected_error (pr.2.getD "") (patOf entry) = true then
        match st.1 with
        | none => .error .unboundLocal
        | some ls => .ok (.inl ({ file_path := path, success := true, layer := 2,
                                  layers_passed := ls,
                                  execution_time_ms := fe.elapsedMs }, inv))
      else
        match st.1 with
        | none => .error .unboundLocal
        | some ls => .ok (.inl ({ file_path := path, success := false, layer := 2,
                                  error := pr.2, layers_passed := ls,
                                  execution_time_ms := fe.elapsedMs }, inv))
  else .ok (.inr st)

/-- Layer 3 (Type Checking).  The source performs no external invocation
here (analysis already covers type checking; the `error_example`
sub-branch is `pass`); it only appends `3` to `result_layers`. -/
def layer3 (entry : ManifestEntry) (st : Option (List Nat) × List Nat) : Step :=
  if 3 ∈ entry.validate_layers then
    match st.1 with
    | none => .error .unboundLocal
    | some ls => .ok (.inr (some (ls ++ [3]), st.2))
  else .ok (.inr st)

/-- Layer 4 (Linting).  The lint adapter is invoked, but both its success
and failure branches do the same thing: append `4` and continue. -/
def layer4 (bex : Bool) (fe : FileEnv) (path : String) (entry : ManifestEntry)
    (st : Option (List Nat) × List Nat) : Step :=
  if 4 ∈ entry.validate_layers then
    let pr := validate_with_cli bex fe.lintProc "lint" path
    let inv := st.2 ++ [4]
    if pr.1 = true then
      match st.1 with
      | none => .error .unboundLocal
      | some ls => .ok (.inr (some (ls ++ [4]), inv))
    else
      match st.1 with
      | none => .error .unboundLocal
      | some ls => .ok (.inr (some (ls ++ [4]), inv))
  else .ok (.inr st)

/-- The `f"Exit code {exit_code}, expected {expected_exit_code}"` message of
the layer-5 failure path, with its optional stderr excerpt. -/
def execErrorMsg (exitCode expected : Int) (stderr : String) : String :=
  let base := "Exit code " ++ toString exitCode ++ ", expected " ++ toString expected
  if stderr ≠ "" then base ++ "\nStderr: " ++ pySlice stderr 200 else base

/-- Layer 5 (Execution).  Success is `exit_code == expected_exit_code`; on
mismatch the reconciliation tests only `type == 'error_example'` (the
expected failure layer is not consulted here), matching the pattern against
`stderr or stdout`. -/
def layer5 (bex : Bool) (fe : FileEnv) (path : String) (entry : ManifestEntry)
    (st : Option (List Nat) × List Nat) : Step :=
  if 5 ∈ entry.validate_layers ∧ entry.skip_execution = false then
    let r := execute_wfl_file bex fe.execProc path entry.timeout_seconds
    let inv := st.2 ++ [5]
    if r.1 ≠ entry.expected_exit_code then
      if entry.type = "error_example" ∧
          validate_expected_error (if r.2.2 ≠ "" then r.2.2 else r.2.1) (patOf entry) = true then
        match st.1 with
        | none => .error .unboundLocal
        | some ls => .ok (.inl ({ file_path := path, success := true, layer := 5,
                                  layers_passed := ls,
                                  execution_time_ms := fe.elapsedMs }, inv))
      else
        match st.1 with
        | none => .error .unboundLocal
        | some ls => .ok (.inl ({ file_path := path, success := false, layer := 5,
                                  error := some (execErrorMsg r.1 entry.expected_exit_code r.2.2),
                                  layers_passed := ls,
                                  execution_time_ms := fe.elapsedMs }, inv))
    else
      match st.1 with
      | none => .error .unboundLocal
      | some ls => .ok (.inr (some (ls ++ [5]), inv))
  else .ok (.inr st)

/-- The fall-through tail of `validate_example`: all requested layers
passed, so build the successful result (always tagged with the Execute
layer), reading `result_layers` one last time. -/
def finishRun (fe : FileEnv) (path : String) : Step → Except PyErr (VResult × List Nat)
  | .error e => .error e
  | .ok (.inl fin) => .ok fin
  | .ok (.inr (none, _)) => .error .unboundLocal
  | .ok (.inr (some ls, inv)) =>
      .ok ({ file_path := path, success := true, layer := 5, layers_passed := ls,
             execution_time_ms := fe.elapsedMs }, inv)

/-- Model of `validate_example`: the read of the source file, then the five
layer blocks in order, then the all-passed tail.  The second component of a
normal return records which layers performed an external invocation. -/
def validate_example (bex : Bool) (fe : FileEnv) (path : String)
    (entry : ManifestEntry) : Except PyErr (VResult × List Nat) :=
  match fe.readError with
  | some e =>
      .ok ({ file_path := path, success := false, layer := 1,
             error := some ("Failed to read file: " ++ e) }, [])
  | none =>
      finishRun fe path
        (thenStep (layer1 bex fe path entry (none, []))
          (fun st => thenStep (layer2 bex fe path entry st)
            (fun st => thenStep (layer3 entry st)
              (fun st => thenStep (layer4 bex fe path entry st)
                (fun st => layer5 bex fe path entry st)))))

/-! ## Batch layer: staleness decider, orchestrator, cache updater, report -/

/-- Global external observations for one whole run: binary presence, the
filesystem, the content fingerprints (`compute_file_hash`), the
`datetime.fromisoformat` oracle and the current time. -/
structure World where
  binaryExists : Bool := true
  fileExists : String → Bool := fun _ => true
  fileEnv : String → FileEnv := fun _ => {}
  hashOf : String → String := fun _ => ""
  fromiso : String → Option Int := fun _ => none
  nowEpoch : Int := 0
  nowIso : String := ""
  wflVersion : String := "unknown"

/-- Model of `should_validate`: manifest membership, fingerprint
comparison, then the 7-day freshness window on `last_validated` (the age in
days is `timedelta.days`, a floor; an empty/absent timestamp skips the
whole age check). -/
def should_validate (w : World) (relPath : String)
    (manifest : List (String × ManifestEntry)) (cache : Cache) : Bool :=
  if relPath ∈ manifest.map Prod.fst then
    let currentHash := w.hashOf relPath
    match lookupStr cache.files relPath with
    | none => true
    | some entry =>
        if currentHash ≠ entry.content_hash then true
        else
          let lv := entry.last_validated
          if lv ≠ "" then
            match w.fromiso (pyReplace lv "Z" "+00:00") with
            | none => true
            | some t => decide ((w.nowEpoch - t).fdiv 86400 > 7)
          else false
  else true

/-- The `--category` prefix filter: `rel_path.startswith(f"{category}/")`. -/
def categoryOk (category : Option String) (relPath : String) : Bool :=
  match category with
  | some c => pyStartswith relPath (c ++ "/")
  | none => true

/-- The files the batch loop retains: present on disk, matching the
category filter, and (forced or stale). -/
def filesToValidate (w : World) (manifest : List (String × ManifestEntry))
    (cache : Cache) (category : Option String) (force : Bool) :
    List (String × ManifestEntry) :=
  manifest.filter (fun kv =>
    w.fileExists kv.1 && categoryOk category kv.1 &&
      (force || should_validate w kv.1 manifest cache))

/-- The files the batch loop skips via the staleness decider (cache hits). -/
def skippedFiles (w : World) (manifest : List (String × ManifestEntry))
    (cache : Cache) (category : Option String) (force : Bool) :
    List (String × ManifestEntry) :=
  manifest.filter (fun kv =>
    w.fileExists kv.1 && categoryOk category kv.1 &&
      !(force || should_validate w kv.1 manifest cache))

/-- The file list a run will execute: the single `--file` target when given
(if it has a manifest entry), otherwise the retained batch files. -/
def plannedFiles (w : World) (manifest : List (String × ManifestEntry))
    (cache : Cache) (category : Option String) (singleFile : Option String)
    (force : Bool) : List (String × ManifestEntry) :=
  match singleFile with
  | some p =>
      match lookupStr manifest p with
      | none => []
      | some e => [(p, e)]
  | none => filesToValidate w manifest cache category force

/-- The sequential validation loop: each file's outcome is appended to the
passed or failed list; a Python exception aborts the whole batch. -/
def runFiles (w : World) : List (String × ManifestEntry) →
    Except PyErr (List VResult × List VResult)
  | [] => .ok ([], [])
  | (p, e) :: rest =>
      match validate_example w.binaryExists (w.fileEnv p) p e with
      | .error err => .error err
      | .ok (r, _) =>
          match runFiles w rest with
          | .error err => .error err
          | .ok (ps, fs) =>
              .ok (if r.success then (r :: ps, fs) else (ps, r :: fs))

/-- Model of `validate_all_examples`: returns `(passed, failed)`. -/
def validate_all_examples (w : World) (manifest : List (String × ManifestEntry))
    (cache : Cache) (category : Option String) (singleFile : Option String)
    (force : Bool) : Except PyErr (List VResult × List VResult) :=
  runFiles w (plannedFiles w manifest cache category singleFile force)

/-- The fresh cache entry `update_cache` writes for one result. -/
def newCacheEntry (w : World) (r : VResult) : CacheEntry :=
  { content_hash := w.hashOf r.file_path,
    last_validated := w.nowIso,
    validation_result := if r.success then "pass" else "fail",
    validation_time_ms := r.execution_time_ms,
    layers_passed := r.layers_passed }

/-- Model of `update_cache`: overwrite (or create) the cache entry of every
result's file, in result order. -/
def update_cache (w : World) (cache : Cache) (results : List VResult) : Cache :=
  { cache with
    files := results.foldl
      (fun fs r => setAssoc fs r.file_path (newCacheEntry w r)) cache.files }

/-- `ValidationLayer(...).name.lower()`. -/
def layerName : Nat → String
  | 1 => "parse"
  | 2 => "analyze"
  | 3 => "typecheck"
  | 4 => "lint"
  | 5 => "execute"
  | _ => ""

/-- One element of the report's failure list. -/
structure ReportFailure where
  file : String
  layer : Nat
  layer_name : String
  error : Option String
deriving DecidableEq, Repr

/-- The JSON report object `generate_report` writes. -/
structure Report where
  validation_timestamp : String
  wfl_version : String
  total_examples : Nat
  validated : Nat
  passed : Nat
  failed : Nat
  failures : List ReportFailure
deriving DecidableEq, Repr

/-- Model of `generate_report`. -/
def generate_report (w : World) (passed failed : List VResult) : Report :=
  { validation_timestamp := w.nowIso,
    wfl_version := w.wflVersion,
    total_examples := passed.length + failed.length,
    validated := passed.length + failed.length,
    passed := passed.length,
    failed := failed.length,
    failures := failed.map (fun r =>
      { file := r.file_path, layer := r.layer, layer_name := layerName r.layer,
        error := r.error }) }

/-- The parsed command-line arguments of `main`. -/
structure Args where
  category : Option String := none
  file : Option String := none
  ci : Bool := false
  force : Bool := false
  update_manifest : Bool := false
  report : Bool := false
  verbose : Bool := false

/-- `main` drops manifest keys beginning with the schema marker. -/
def loadedManifest (m0 : List (String × ManifestEntry)) :
    List (String × ManifestEntry) :=
  m0.filter (fun kv => !pyStartswith kv.1 "$")

/-- `main` loads the cache file only when it exists and `--force` is not
set; otherwise the run starts from an empty cache object. -/
def loadedCache (cacheFile : Option Cache) (force : Bool) : Cache :=
  match cacheFile with
  | some c => if force then {} else c
  | none => {}

/-- Everything observable that `main` produces: the process exit status,
the cache file contents if (re)written, the report if requested, and the
two result lists. -/
structure MainOutcome where
  exitCode : Nat
  cacheWritten : Option Cache
  reportWritten : Option Report
  passed : List VResult
  failed : List VResult

/-- Model of `main` after argument parsing: missing manifest aborts with
exit 1; otherwise the batch runs, the cache is rewritten unless `--ci`, the
report is emitted when `--report`, and the exit status reflects whether any
failure occurred.  `manifestFile`/`cacheFile` are the parsed contents of the
two JSON files, `none` when absent on disk. -/
def runMain (w : World) (manifestFile : Option (List (String × ManifestEntry)))
    (cacheFile : Option Cache) (args : Args) : Except PyErr MainOutcome :=
  match manifestFile with
  | none =>
      .ok { exitCode := 1, cacheWritten := none, reportWritten := none,
            passed := [], failed := [] }
  | some m0 =>
      let manifest := loadedManifest m0
      let cache := loadedCache cacheFile args.force
      match validate_all_examples w manifest cache args.category args.file args.force with
      | .error e => .error e
      | .ok (p, f) =>
          let written :=
            if args.ci then none
            else some { update_cache w cache (p ++ f) with
                        wfl_version := some w.wflVersion,
                        last_full_validation := some w.nowIso }
          let rep := if args.report then some (generate_report w p f) else none
          .ok { exitCode := if f.isEmpty then 0 else 1, cacheWritten := written,
                reportWritten := rep, passed := p, failed := f }

/-! ## Concrete fixtures used by counterexamples and witnesses -/

/-- Lint fails with a diagnostic that does not contain the expected
pattern. -/
def feLintFail : FileEnv := { lintProc := .completed 1 "" "something else" }

/-- An `error_example` declaring its expected failure at the lint layer. -/
def entLint : ManifestEntry :=
  { validate_layers := [1, 4], type := "error_example",
    expected_failure_layer := some 4,
    expected_error_pattern := some (litRegex "boom") }

/-- Execution exits 1 with a matching stderr; the static layers pass. -/
def feExecFail : FileEnv := { execProc := .completed 1 "" "boom happened" }

/-- An `error_example` declaring its expected failure at the parse layer
but requesting the execute layer as well. -/
def entParseDecl : ManifestEntry :=
  { validate_layers := [1, 5], type := "error_example",
    expected_failure_layer := some 1,
    expected_error_pattern := some (litRegex "boom") }

/-- A manifest entry requesting only layer 2. -/
def entOnly2 : ManifestEntry := { validate_layers := [2] }

/-- A world whose fingerprint of every file is `"sha256:h"`, and whose
timestamp oracle parses nothing. -/
def wHashH : World := { hashOf := fun _ => "sha256:h" }

/-- A one-file manifest. -/
def manOne : List (String × ManifestEntry) := [("docs_examples/a.wfl", {})]

/-- A cache whose entry for that file has the matching fingerprint, an
empty `last_validated`, and a recorded failure. -/
def cacheNoStamp : Cache :=
  { files := [("docs_examples/a.wfl",
      { content_hash := "sha256:h", validation_result := "fail" })] }

/-- A world with the toolchain binary absent. -/
def wNoBinary : World := { binaryExists := false }

/-- A two-file manifest with default entries. -/
def manTwo : List (String × ManifestEntry) := [("a", {}), ("b", {})]

/-- The diagnostic `validate_with_cli` produces when the binary is absent. -/
def binaryMissingMsg : String :=
  "WFL binary not found at " ++ wflBinary ++ ". Run 'cargo build --release' first."

/-! ## C4 -/

/-- C4: the claim says `validate_example` terminates normally in a terminal
state for every non-empty `validate_layers ⊆ {1..5}`, including sets
without layer 1.  The code initialises `result_layers` only inside the
`1 in layers_to_validate` branch, so an entry requesting `[2]` (file
readable, analysis succeeding) raises `UnboundLocalError` instead of
returning an outcome. -/
theorem c4_missing_layer1_raises :
    validate_example true {} "p" entOnly2 = .error .unboundLocal := rfl

/-! ## C1 counterexample -/

/-- C1 counterexample: an `error_example` with `expected_failure_layer = 4`
and a pattern that does not match the lint diagnostic.  The lint invocation
fails, so the claim requires the outcome `Failed`; the code never
reconciles at layer 4 and the run ends `Passed`. -/
theorem c1_counterexample :
    entLint.type = "error_example" ∧
    entLint.expected_failure_layer = some 4 ∧
    (validate_with_cli true feLintFail.lintProc "lint" "p").1 = false ∧
    validate_expected_error
      ((validate_with_cli true feLintFail.lintProc "lint" "p").2.getD "")
      (patOf entLint) = false ∧
    validate_example true feLintFail "p" entLint =
      .ok ({ file_path := "p", success := true, layer := 5,
             layers_passed := [1, 4] }, [1, 4]) :=
  ⟨rfl, rfl, rfl, by decide, rfl⟩

/-! ## C2 counterexample -/

/-- C2 counterexample: an `error_example` whose `expected_failure_layer` is
1, not 5.  Execution exits 1 against an expected exit code of 0, so the
claim requires `Failed`; the layer-5 reconciliation ignores the expected
failure layer, the stderr matches the pattern, and the run ends `Passed`. -/
theorem c2_counterexample :
    entParseDecl.type = "error_example" ∧
    entParseDecl.expected_failure_layer = some 1 ∧
    (execute_wfl_file true feExecFail.execProc "p" 30).1 ≠ entParseDecl.expected_exit_code ∧
    validate_example true feExecFail "p" entParseDecl =
      .ok ({ file_path := "p", success := true, layer := 5,
             layers_passed := [1] }, [1, 5]) :=
  ⟨rfl, rfl, by decide, rfl⟩

/-! ## C3 counterexample -/

/-- C3 counterexample: a manifest-listed file whose cache entry has the
matching fingerprint but an empty `last_validated`.  No timestamp parses
(the claim then requires re-validation), yet `should_validate` skips the
file, because the code only examines the age when the timestamp string is
non-empty. -/
theorem c3_counterexample :
    lookupStr cacheNoStamp.files "docs_examples/a.wfl" =
      some { content_hash := "sha256:h", validation_result := "fail" } ∧
    wHashH.fromiso "" = none ∧
    should_validate wHashH "docs_examples/a.wfl" manOne cacheNoStamp = false :=
  ⟨rfl, rfl, rfl⟩

/-! ## C6 counterexample -/

/-- C6 counterexample: with the binary absent and two manifest-listed
files, the claim requires the run to abort immediately; instead both files
are executed, each recorded as a per-file failure carrying the descriptive
diagnostic, and the batch runs to completion. -/
theorem c6_counterexample :
    validate_all_examples wNoBinary manTwo {} none none false =
      .ok ([],
        [{ file_path := "a", success := false, layer := 1,
           error := some binaryMissingMsg },
         { file_path := "b", success := false, layer := 1,
           error := some binaryMissingMsg }]) := rfl

/-! ## C8: CI mode never writes the cache -/

/-- C8: when `--ci` is set, `main` skips the entire cache-update block, so
no cache file is written and the in-memory cache is not folded into —
repeated CI runs are cache-side-effect-free. -/
theorem c8_ci_frame (w : World) (manifestFile : Option (List (String × ManifestEntry)))
    (cacheFile : Option Cache) (args : Args) (o : MainOutcome)
    (hci : args.ci = true)
    (hrun : runMain w manifestFile cacheFile args = .ok o) :
    o.cacheWritten = none := by
  cases manifestFile with
  | none =>
      simp only [runMain] at hrun
      cases hrun
      rfl
  | some m0 =>
      simp only [runMain] at hrun
      cases hall : validate_all_examples w (loadedManifest m0)
          (loadedCache cacheFile args.force) args.category args.file args.force with
      | error e => rw [hall] at hrun; cases hrun
      | ok pf =>
          rw [hall] at hrun
          cases hrun
          simp [hci]

/-- Witness for C8 at a concrete run. -/
theorem c8_witness :
    ({ ci := true } : Args).ci = true ∧
    runMain {} (some []) none { ci := true } =
      .ok { exitCode := 0, cacheWritten := none, reportWritten := none,
            passed := [], failed := [] } ∧
    ({ exitCode := 0, cacheWritten := none, reportWritten := none,
       passed := [], failed := [] } : MainOutcome).cacheWritten = none := by
  refine ⟨rfl, by rfl, ?_⟩
  exact c8_ci_frame {} (some []) none { ci := true } _ rfl (by rfl)

/-! ## Executor lemmas: passing through the early layers -/

/-- Layer 1 on a successful parse: `result_layers` becomes `[1]`. -/
theorem layer1_parse_ok (bex : Bool) (fe : FileEnv) (path : String)
    (entry : ManifestEntry) (st : Option (List Nat) × List Nat)
    (h1 : 1 ∈ entry.validate_layers)
    (hp : (validate_with_cli bex fe.parseProc "parse" path).1 = true) :
    layer1 bex fe path entry st = .ok (.inr (some [1], st.2 ++ [1])) := by
  simp [layer1, h1, hp]

/-- `result_layers` after the four static layers, when they all pass. -/
def lsAfter4 (entry : ManifestEntry) : List Nat :=
  [1] ++ (if 2 ∈ entry.validate_layers then [2] else []) ++
    (if 3 ∈ entry.validate_layers then [3] else []) ++
    (if 4 ∈ entry.validate_layers then [4] else [])

/-- The external invocations performed by the four static layers. -/
def invAfter4 (entry : ManifestEntry) : List Nat :=
  [1] ++ (if 2 ∈ entry.validate_layers then [2] else []) ++
    (if 4 ∈ entry.validate_layers then [4] else [])

/-- When the file reads, parse succeeds, and analysis succeeds whenever
requested, the executor reaches layer 5 with `result_layers = lsAfter4`. -/
theorem validate_example_to5 (bex : Bool) (fe : FileEnv) (path : String)
    (entry : ManifestEntry)
    (hre : fe.readError = none)
    (h1 : 1 ∈ entry.validate_layers)
    (hp : (validate_with_cli bex fe.parseProc "parse" path).1 = true)
    (ha : 2 ∈ entry.validate_layers →
      (validate_with_cli bex fe.analyzeProc "analyze" path).1 = true) :
    validate_example bex fe path entry =
      finishRun fe path
        (layer5 bex fe path entry (some (lsAfter4 entry), invAfter4 entry)) := by
  by_cases h2 : 2 ∈ entry.validate_layers <;>
    by_cases h3 : 3 ∈ entry.validate_layers <;>
      by_cases h4 : 4 ∈ entry.validate_layers <;>
        simp [validate_example, hre, layer1, h1, hp, layer2, h2, ha, layer3, h3,
          layer4, h4, lsAfter4, invAfter4, thenStep]

/-! ## C1: expected-failure reconciliation -/

/-- C1 (amended to the layers at which the code reconciles): for an
`error_example` with a declared pattern, when the invocation at the
declared failure layer fails and that layer is 1, 2 or 5, the diagnostic is
checked with a case-insensitive regular-expression search: a match yields
`Passed` immediately with no subsequent layer invoked, a non-match yields
`Failed`.  (At layer 4 the code never reconciles — lint failures are
recorded and the run continues, see the counterexample — and layer 3
performs no invocation at all.) -/
theorem c1_expected_failure_reconciliation :
    (∀ (bex : Bool) (fe : FileEnv) (path : String) (entry : ManifestEntry)
        (d : Option String) (pat : Regex),
      fe.readError = none →
      1 ∈ entry.validate_layers →
      entry.type = "error_example" →
      entry.expected_failure_layer = some 1 →
      entry.expected_error_pattern = some pat →
      validate_with_cli bex fe.parseProc "parse" path = (false, d) →
      (validate_expected_error (d.getD "") pat = true →
        validate_example bex fe path entry =
          .ok ({ file_path := path, success := true, layer := 1,
                 execution_time_ms := fe.elapsedMs }, [1])) ∧
      (validate_expected_error (d.getD "") pat = false →
        validate_example bex fe path entry =
          .ok ({ file_path := path, success := false, layer := 1, error := d,
                 execution_time_ms := fe.elapsedMs }, [1]))) ∧
    (∀ (bex : Bool) (fe : FileEnv) (path : String) (entry : ManifestEntry)
        (d : Option String) (pat : Regex),
      fe.readError = none →
      1 ∈ entry.validate_layers →
      (validate_with_cli bex fe.parseProc "parse" path).1 = true →
      2 ∈ entry.validate_layers →
      entry.type = "error_example" →
      entry.expected_failure_layer = some 2 →
      entry.expected_error_pattern = some pat →
      validate_with_cli bex fe.analyzeProc "analyze" path = (false, d) →
      (validate_expected_error (d.getD "") pat = true →
        validate_example bex fe path entry =
          .ok ({ file_path := path, success := true, layer := 2,
                 layers_passed := [1], execution_time_ms := fe.elapsedMs }, [1, 2])) ∧
      (validate_expected_error (d.getD "") pat = false →
        validate_example bex fe path entry =
          .ok ({ file_path := path, success := false, layer := 2, error := d,
                 layers_passed := [1], execution_time_ms := fe.elapsedMs }, [1, 2]))) ∧
    (∀ (bex : Bool) (fe : FileEnv) (path : String) (entry : ManifestEntry)
        (pat : Regex) (ec : Int) (out err : String),
      fe.readError = none →
      1 ∈ entry.validate_layers →
      (validate_with_cli bex fe.parseProc "parse" path).1 = true →
      (2 ∈ entry.validate_layers →
        (validate_with_cli bex fe.analyzeProc "analyze" path).1 = true) →
      5 ∈ entry.validate_layers →
      entry.skip_execution = false →
      entry.type = "error_example" →
      entry.expected_failure_layer = some 5 →
      entry.expected_error_pattern = some pat →
      execute_wfl_file bex fe.execProc path entry.timeout_seconds = (ec, out, err) →
      ec ≠ entry.expected_exit_code →
      (validate_expected_error (if err ≠ "" then err else out) pat = true →
        validate_example bex fe path entry =
          .ok ({ file_path := path, success := true, layer := 5,
                 layers_passed := lsAfter4 entry,
                 execution_time_ms := fe.elapsedMs }, invAfter4 entry ++ [5])) ∧
      (validate_expected_error (if err ≠ "" then err else out) pat = false →
        validate_example bex fe path entry =
          .ok ({ file_path := path, success := false, layer := 5,
                 error := some (execErrorMsg ec entry.expected_exit_code err),
                 layers_passed := lsAfter4 entry,
                 execution_time_ms := fe.elapsedMs }, invAfter4 entry ++ [5]))) := by
  refine ⟨?_, ?_, ?_⟩
  · intro bex fe path entry d pat hre h1 htype hefl hpat hcli
    constructor
    · intro hm
      simp [validate_example, hre, layer1, h1, hcli, htype, hefl, patOf, hpat, hm,
        thenStep, finishRun]
    · intro hm
      simp [validate_example, hre, layer1, h1, hcli, htype, hefl, patOf, hpat, hm,
        thenStep, finishRun]
  · intro bex fe path entry d pat hre h1 hp h2 htype hefl hpat hcli
    constructor
    · intro hm
      simp [validate_example, hre, layer1, h1, hp, layer2, h2, hcli, htype, hefl,
        patOf, hpat, hm, thenStep, finishRun]
    · intro hm
      simp [validate_example, hre, layer1, h1, hp, layer2, h2, hcli, htype, hefl,
        patOf, hpat, hm, thenStep, finishRun]
  · intro bex fe path entry pat ec out err hre h1 hp ha h5 hsk htype hefl hpat hexec hne
    have hto5 := validate_example_to5 bex fe path entry hre h1 hp ha
    constructor
    · intro hm
      simp only [ne_eq, ite_not] at hm
      rw [hto5]
      simp [layer5, h5, hsk, hexec, hne, htype, patOf, hpat, hm, finishRun]
    · intro hm
      simp only [ne_eq, ite_not] at hm
      rw [hto5]
      simp [layer5, h5, hsk, hexec, hne, htype, patOf, hpat, hm, finishRun]

/-- Witness for C1: the layer-1 reconciliation at a concrete entry whose
parse fails with a matching diagnostic, and at one where it does not
match. -/
theorem c1_witness :
    validate_example true { parseProc := .completed 1 "" "error: Unexpected Token ahead" }
        "p" { validate_layers := [1], type := "error_example",
              expected_failure_layer := some 1,
              expected_error_pattern := some (litRegex "unexpected token") } =
      .ok ({ file_path := "p", success := true, layer := 1,
             execution_time_ms := 0 }, [1]) ∧
    validate_example true { parseProc := .completed 1 "" "file not found" }
        "p" { validate_layers := [1], type := "error_example",
              expected_failure_layer := some 1,
              expected_error_pattern := some (litRegex "unexpected token") } =
      .ok ({ file_path := "p", success := false, layer := 1,
             error := some "file not found",
             execution_time_ms := 0 }, [1]) := by
  constructor
  · exact (c1_expected_failure_reconciliation.1 true
      { parseProc := .completed 1 "" "error: Unexpected Token ahead" } "p"
      { validate_layers := [1], type := "error_example",
        expected_failure_layer := some 1,
        expected_error_pattern := some (litRegex "unexpected token") }
      (some "error: Unexpected Token ahead") (litRegex "unexpected token")
      rfl (by decide) rfl rfl rfl (by decide)).1 (by decide)
  · exact (c1_expected_failure_reconciliation.1 true
      { parseProc := .completed 1 "" "file not found" } "p"
      { validate_layers := [1], type := "error_example",
        expected_failure_layer := some 1,
        expected_error_pattern := some (litRegex "unexpected token") }
      (some "file not found") (litRegex "unexpected token")
      rfl (by decide) rfl rfl rfl (by decide)).2 (by decide)

/-! ## C2: hard failures -/

/-- C2 (amended at layer 5): at layers 1 and 2, a failing invocation for an
entry that is not an `error_example`, or whose `expected_failure_layer` is
not this layer, yields `Failed` with the diagnostic and the layers passed
so far, and no later layer is invoked.  At layer 5 the code does not
compare `expected_failure_layer`: an exit-code mismatch yields `Failed`
only when the entry is not an `error_example` or the combined
stderr/stdout does not match the pattern (an `error_example` declaring its
failure at an earlier layer still reconciles here — see the
counterexample). -/
theorem c2_hard_failure :
    (∀ (bex : Bool) (fe : FileEnv) (path : String) (entry : ManifestEntry)
        (d : Option String),
      fe.readError = none →
      1 ∈ entry.validate_layers →
      (entry.type ≠ "error_example" ∨ entry.expected_failure_layer ≠ some 1) →
      validate_with_cli bex fe.parseProc "parse" path = (false, d) →
      validate_example bex fe path entry =
        .ok ({ file_path := path, success := false, layer := 1, error := d,
               execution_time_ms := fe.elapsedMs }, [1])) ∧
    (∀ (bex : Bool) (fe : FileEnv) (path : String) (entry : ManifestEntry)
        (d : Option String),
      fe.readError = none →
      1 ∈ entry.validate_layers →
      (validate_with_cli bex fe.parseProc "parse" path).1 = true →
      2 ∈ entry.validate_layers →
      (entry.type ≠ "error_example" ∨ entry.expected_failure_layer ≠ some 2) →
      validate_with_cli bex fe.analyzeProc "analyze" path = (false, d) →
      validate_example bex fe path entry =
        .ok ({ file_path := path, success := false, layer := 2, error := d,
               layers_passed := [1], execution_time_ms := fe.elapsedMs }, [1, 2])) ∧
    (∀ (bex : Bool) (fe : FileEnv) (path : String) (entry : ManifestEntry)
        (ec : Int) (out err : String),
      fe.readError = none →
      1 ∈ entry.validate_layers →
      (validate_with_cli bex fe.parseProc "parse" path).1 = true →
      (2 ∈ entry.validate_layers →
        (validate_with_cli bex fe.analyzeProc "analyze" path).1 = true) →
      5 ∈ entry.validate_layers →
      entry.skip_execution = false →
      execute_wfl_file bex fe.execProc path entry.timeout_seconds = (ec, out, err) →
      ec ≠ entry.expected_exit_code →
      (entry.type ≠ "error_example" ∨
        validate_expected_error (if err ≠ "" then err else out) (patOf entry) = false) →
      validate_example bex fe path entry =
        .ok ({ file_path := path, success := false, layer := 5,
               error := some (execErrorMsg ec entry.expected_exit_code err),
               layers_passed := lsAfter4 entry,
               execution_time_ms := fe.elapsedMs }, invAfter4 entry ++ [5])) := by
  refine ⟨?_, ?_, ?_⟩
  · intro bex fe path entry d hre h1 hneg hcli
    rcases hneg with hneg | hneg <;>
      simp [validate_example, hre, layer1, h1, hcli, hneg, thenStep, finishRun]
  · intro bex fe path entry d hre h1 hp h2 hneg hcli
    rcases hneg with hneg | hneg <;>
      simp [validate_example, hre, layer1, h1, hp, layer2, h2, hcli, hneg,
        thenStep, finishRun]
  · intro bex fe path entry ec out err hre h1 hp ha h5 hsk hexec hne hneg
    have hto5 := validate_example_to5 bex fe path entry hre h1 hp ha
    rw [hto5]
    rcases hneg with hneg | hneg
    · simp [layer5, h5, hsk, hexec, hne, hneg, finishRun]
    · simp only [ne_eq, ite_not] at hneg
      simp [layer5, h5, hsk, hexec, hne, hneg, finishRun]

/-- Witness for C2: a plain `executable` entry whose parse invocation
fails is `Failed` at layer 1 with the diagnostic captured. -/
theorem c2_witness :
    validate_example true { parseProc := .completed 1 "" "syntax error" } "p"
        { validate_layers := [1, 2] } =
      .ok ({ file_path := "p", success := false, layer := 1,
             error := some "syntax error", execution_time_ms := 0 }, [1]) :=
  c2_hard_failure.1 true { parseProc := .completed 1 "" "syntax error" } "p"
    { validate_layers := [1, 2] } (some "syntax error") rfl (by decide)
    (.inl (by decide)) (by decide)

/-! ## Executor invariants shared by several claims -/

/-- Invariant carried through the executor chain: any final result names
the file it was asked about, and layer 3 never appears among the recorded
external invocations. -/
def StepGood (path : String) : Step → Prop
  | .error _ => True
  | .ok (.inl (r, inv)) => r.file_path = path ∧ 3 ∉ inv
  | .ok (.inr (_, inv)) => 3 ∉ inv

theorem stepGood_layer1 (bex : Bool) (fe : FileEnv) (path : String)
    (entry : ManifestEntry) (st : Option (List Nat) × List Nat)
    (h : 3 ∉ st.2) : StepGood path (layer1 bex fe path entry st) := by
  unfold layer1
  split_ifs <;> simp_all [StepGood, List.mem_append] <;>
    split_ifs <;> simp_all [StepGood, List.mem_append]

theorem stepGood_layer2 (bex : Bool) (fe : FileEnv) (path : String)
    (entry : ManifestEntry) (st : Option (List Nat) × List Nat)
    (h : 3 ∉ st.2) : StepGood path (layer2 bex fe path entry st) := by
  obtain ⟨rl, inv⟩ := st
  cases rl <;> unfold layer2 <;>
    split_ifs <;> simp_all [StepGood, List.mem_append] <;>
      split_ifs <;> simp_all [StepGood, List.mem_append]

theorem stepGood_layer3 (path : String) (entry : ManifestEntry)
    (st : Option (List Nat) × List Nat)
    (h : 3 ∉ st.2) : StepGood path (layer3 entry st) := by
  obtain ⟨rl, inv⟩ := st
  cases rl <;> unfold layer3 <;>
    split_ifs <;> simp_all [StepGood]

theorem stepGood_layer4 (bex : Bool) (fe : FileEnv) (path : String)
    (entry : ManifestEntry) (st : Option (List Nat) × List Nat)
    (h : 3 ∉ st.2) : StepGood path (layer4 bex fe path entry st) := by
  obtain ⟨rl, inv⟩ := st
  cases rl <;> unfold layer4 <;>
    split_ifs <;> simp_all [StepGood, List.mem_append] <;>
      split_ifs <;> simp_all [StepGood, List.mem_append]

theorem stepGood_layer5 (bex : Bool) (fe : FileEnv) (path : String)
    (entry : ManifestEntry) (st : Option (List Nat) × List Nat)
    (h : 3 ∉ st.2) : StepGood path (layer5 bex fe path entry st) := by
  obtain ⟨rl, inv⟩ := st
  cases rl <;> unfold layer5 <;>
    split_ifs <;> simp_all [StepGood, List.mem_append] <;>
      split_ifs <;> simp_all [StepGood, List.mem_append]

theorem stepGood_thenStep (path : String) (x : Step)
    (f : Option (List Nat) × List Nat → Step)
    (hx : StepGood path x) (hf : ∀ st, 3 ∉ st.2 → StepGood path (f st)) :
    StepGood path (thenStep x f) := by
  cases x with
  | error e => exact trivial
  | ok v =>
      cases v with
      | inl fin => exact hx
      | inr st => exact hf st hx

/-- Any normal return of `validate_example` is about the requested file,
and layer 3 never performed an external invocation. -/
theorem validate_example_good (bex : Bool) (fe : FileEnv) (path : String)
    (entry : ManifestEntry) (r : VResult) (inv : List Nat)
    (h : validate_example bex fe path entry = .ok (r, inv)) :
    r.file_path = path ∧ 3 ∉ inv := by
  unfold validate_example at h
  cases hre : fe.readError with
  | some e =>
      rw [hre] at h
      cases h
      exact ⟨rfl, by simp⟩
  | none =>
      rw [hre] at h
      have hg : StepGood path
          (thenStep (layer1 bex fe path entry (none, []))
            (fun st => thenStep (layer2 bex fe path entry st)
              (fun st => thenStep (layer3 entry st)
                (fun st => thenStep (layer4 bex fe path entry st)
                  (fun st => layer5 bex fe path entry st))))) := by
        refine stepGood_thenStep _ _ _ (stepGood_layer1 _ _ _ _ _ (by simp)) ?_
        intro st hst
        refine stepGood_thenStep _ _ _ (stepGood_layer2 _ _ _ _ _ hst) ?_
        intro st hst
        refine stepGood_thenStep _ _ _ (stepGood_layer3 _ _ _ hst) ?_
        intro st hst
        refine stepGood_thenStep _ _ _ (stepGood_layer4 _ _ _ _ _ hst) ?_
        intro st hst
        exact stepGood_layer5 _ _ _ _ _ hst
      set x := thenStep (layer1 bex fe path entry (none, []))
          (fun st => thenStep (layer2 bex fe path entry st)
            (fun st => thenStep (layer3 entry st)
              (fun st => thenStep (layer4 bex fe path entry st)
                (fun st => layer5 bex fe path entry st)))) with hx
      clear_value x
      cases x with
      | error e => cases h
      | ok v =>
          cases v with
          | inl fin =>
              obtain ⟨rr, ii⟩ := fin
              simp only [finishRun] at h
              cases h
              exact hg
          | inr st =>
              obtain ⟨rl, ii⟩ := st
              cases rl with
              | none => cases h
              | some ls =>
                  simp only [finishRun] at h
                  cases h
                  exact ⟨rfl, hg⟩

/-! ## C5: layer 3 is silent and lint failures never halt the run -/

/-- C5: (i) layer 3 never performs an external invocation; (ii) the entire
outcome of `validate_example` is independent of the lint invocation's
result, so a failing lint never terminates the run; (iii) for an entry
requesting layers `{1,2,4,5}` whose parse and analysis succeed, layer 4 is
recorded in `layers_passed` and layer 5 is invoked (when execution is not
skipped) whatever the lint invocation returned. -/
theorem c5_layer3_silent_lint_nonfatal :
    (∀ (bex : Bool) (fe : FileEnv) (path : String) (entry : ManifestEntry)
        (r : VResult) (inv : List Nat),
      validate_example bex fe path entry = .ok (r, inv) → 3 ∉ inv) ∧
    (∀ (bex : Bool) (fe : FileEnv) (l : ProcResult) (path : String)
        (entry : ManifestEntry),
      validate_example bex { fe with lintProc := l } path entry =
        validate_example bex fe path entry) ∧
    (∀ (bex : Bool) (fe : FileEnv) (path : String) (entry : ManifestEntry)
        (r : VResult) (inv : List Nat),
      entry.validate_layers = [1, 2, 4, 5] →
      entry.skip_execution = false →
      fe.readError = none →
      (validate_with_cli bex fe.parseProc "parse" path).1 = true →
      (validate_with_cli bex fe.analyzeProc "analyze" path).1 = true →
      validate_example bex fe path entry = .ok (r, inv) →
      4 ∈ r.layers_passed ∧ 5 ∈ inv) := by
  refine ⟨?_, ?_, ?_⟩
  · intro bex fe path entry r inv h
    exact (validate_example_good bex fe path entry r inv h).2
  · intro bex fe l path entry
    obtain ⟨re, pp, ap, lp, ep, em⟩ := fe
    have e1 : ∀ st, layer1 bex ⟨re, pp, ap, l, ep, em⟩ path entry st =
        layer1 bex ⟨re, pp, ap, lp, ep, em⟩ path entry st := by
      intro st; simp [layer1]
    have e2 : ∀ st, layer2 bex ⟨re, pp, ap, l, ep, em⟩ path entry st =
        layer2 bex ⟨re, pp, ap, lp, ep, em⟩ path entry st := by
      intro st; simp [layer2]
    have e4 : ∀ st, layer4 bex ⟨re, pp, ap, l, ep, em⟩ path entry st =
        layer4 bex ⟨re, pp, ap, lp, ep, em⟩ path entry st := by
      intro st; simp [layer4]
    have e5 : ∀ st, layer5 bex ⟨re, pp, ap, l, ep, em⟩ path entry st =
        layer5 bex ⟨re, pp, ap, lp, ep, em⟩ path entry st := by
      intro st; simp [layer5]
    have efin : ∀ x, finishRun ⟨re, pp, ap, l, ep, em⟩ path x =
        finishRun ⟨re, pp, ap, lp, ep, em⟩ path x := by
      intro x
      cases x with
      | error e => rfl
      | ok v =>
          cases v with
          | inl fin => rfl
          | inr st =>
              obtain ⟨rl, iv⟩ := st
              cases rl <;> rfl
    cases re <;> simp only [validate_example, e1, e2, e4, e5, efin]
  · intro bex fe path entry r inv hl hsk hre hp ha h
    rw [validate_example_to5 bex fe path entry hre
      (by rw [hl]; decide) hp (fun _ => ha)] at h
    have hls : lsAfter4 entry = [1, 2, 4] := by
      rw [lsAfter4, hl]; decide
    have hinv : invAfter4 entry = [1, 2, 4] := by
      rw [invAfter4, hl]; decide
    rw [hls, hinv] at h
    have hcond : 5 ∈ entry.validate_layers ∧ entry.skip_execution = false :=
      ⟨by rw [hl]; decide, hsk⟩
    simp only [layer5, hcond, true_and, and_self, if_true] at h
    split_ifs at h <;>
      · simp only [finishRun] at h
        injection h with h2
        injection h2 with hr hi
        rw [← hr, ← hi]
        exact ⟨by simp, by simp⟩

/-- Witness for C5: an entry requesting layers `{1,2,4,5}` whose lint
invocation fails still records layer 4 and proceeds to invoke layer 5. -/
theorem c5_witness :
    4 ∈ ({ file_path := "p", success := true, layer := 5,
           layers_passed := [1, 2, 4, 5],
           execution_time_ms := 0 } : VResult).layers_passed ∧
    5 ∈ ([1, 2, 4, 5] : List Nat) :=
  c5_layer3_silent_lint_nonfatal.2.2 true
    { lintProc := .completed 1 "" "lint issues" } "p"
    { validate_layers := [1, 2, 4, 5] }
    { file_path := "p", success := true, layer := 5,
      layers_passed := [1, 2, 4, 5], execution_time_ms := 0 }
    [1, 2, 4, 5] rfl rfl rfl rfl rfl (by rfl)

/-! ## C6: a missing toolchain binary -/

/-- With the binary absent, a readable non-`error_example` entry requesting
layer 1 fails at layer 1 carrying the descriptive diagnostic. -/
theorem validate_example_no_binary (fe : FileEnv) (path : String)
    (entry : ManifestEntry)
    (hre : fe.readError = none)
    (h1 : 1 ∈ entry.validate_layers)
    (htype : entry.type ≠ "error_example") :
    validate_example false fe path entry =
      .ok ({ file_path := path, success := false, layer := 1,
             error := some binaryMissingMsg,
             execution_time_ms := fe.elapsedMs }, [1]) := by
  simp [validate_example, hre, layer1, h1, validate_with_cli, htype,
    binaryMissingMsg, thenStep, finishRun]

/-- With the binary absent, every file of a readable, layer-1-requesting,
non-negative-example batch yields a failure result and the loop continues. -/
theorem runFiles_no_binary (w : World) (hbin : w.binaryExists = false) :
    ∀ files : List (String × ManifestEntry),
      (∀ kv ∈ files, 1 ∈ kv.2.validate_layers ∧
        (w.fileEnv kv.1).readError = none ∧ kv.2.type ≠ "error_example") →
      ∃ f, runFiles w files = .ok ([], f) ∧ f.length = files.length ∧
        ∀ r ∈ f, r.success = false ∧ r.error = some binaryMissingMsg
  | [], _ => ⟨[], rfl, rfl, by simp⟩
  | (p, e) :: rest, hall => by
      obtain ⟨h1, hre, htype⟩ := hall (p, e) (by simp)
      obtain ⟨f', hrun, hlen, hprop⟩ :=
        runFiles_no_binary w hbin rest (fun kv hkv => hall kv (by simp [hkv]))
      refine ⟨{ file_path := p, success := false, layer := 1,
                error := some binaryMissingMsg,
                execution_time_ms := (w.fileEnv p).elapsedMs } :: f', ?_, ?_, ?_⟩
      · rw [runFiles, hbin, validate_example_no_binary (w.fileEnv p) p e hre h1 htype,
          hrun]
        rfl
      · simp [hlen]
      · intro r hr
        rcases List.mem_cons.mp hr with hr | hr
        · subst hr; exact ⟨rfl, rfl⟩
        · exact hprop r hr

/-- C6 (amended): a missing toolchain binary is never silently skipped —
every check invocation resolves to a failure carrying the descriptive
"binary not found" diagnostic, and execution reports exit code −1 with the
same message — but it is not fatal to the run: the batch records one
failure per executed file and continues through the whole file list
(the run then exits non-zero because failures are non-empty). -/
theorem c6_missing_binary_behavior :
    (∀ (proc : ProcResult) (command filePath : String),
      validate_with_cli false proc command filePath = (false, some binaryMissingMsg)) ∧
    (∀ (proc : ProcResult) (filePath : String) (t : Nat),
      execute_wfl_file false proc filePath t =
        (-1, "", "WFL binary not found at " ++ wflBinary)) ∧
    (∀ (w : World) (manifest : List (String × ManifestEntry)) (cache : Cache)
        (category : Option String) (force : Bool),
      w.binaryExists = false →
      (∀ kv ∈ manifest, 1 ∈ kv.2.validate_layers ∧
        (w.fileEnv kv.1).readError = none ∧ kv.2.type ≠ "error_example") →
      ∃ f, validate_all_examples w manifest cache category none force = .ok ([], f) ∧
        f.length = (filesToValidate w manifest cache category force).length ∧
        ∀ r ∈ f, r.success = false ∧ r.error = some binaryMissingMsg) := by
  refine ⟨fun proc command filePath => rfl, fun proc filePath t => rfl, ?_⟩
  intro w manifest cache category force hbin hall
  exact runFiles_no_binary w hbin (filesToValidate w manifest cache category force)
    (fun kv hkv => hall kv (List.mem_filter.mp hkv).1)

/-- Witness for C6 at the concrete two-file manifest. -/
theorem c6_witness :
    ∃ f, validate_all_examples wNoBinary manTwo {} none none false = .ok ([], f) ∧
      f.length = (filesToValidate wNoBinary manTwo {} none false).length ∧
      ∀ r ∈ f, r.success = false ∧ r.error = some binaryMissingMsg :=
  c6_missing_binary_behavior.2.2 wNoBinary manTwo {} none false rfl (by decide)

/-! ## C7: the count invariant -/

/-- Behaviour of the sequential loop: results partition by success, one
result per processed file, and every result names a processed file. -/
theorem runFiles_spec (w : World) :
    ∀ (files : List (String × ManifestEntry)) (p f : List VResult),
      runFiles w files = .ok (p, f) →
      (∀ r ∈ p, r.success = true) ∧ (∀ r ∈ f, r.success = false) ∧
      p.length + f.length = files.length ∧
      (∀ r ∈ p ++ f, r.file_path ∈ files.map Prod.fst)
  | [], p, f, h => by
      cases h
      exact ⟨by simp, by simp, rfl, by simp⟩
  | (q, e) :: rest, p, f, h => by
      rw [runFiles] at h
      cases hv : validate_example w.binaryExists (w.fileEnv q) q e with
      | error err => rw [hv] at h; cases h
      | ok ri =>
          obtain ⟨r, iv⟩ := ri
          rw [hv] at h
          cases hrest : runFiles w rest with
          | error err => rw [hrest] at h; cases h
          | ok pf =>
              obtain ⟨ps, fs⟩ := pf
              rw [hrest] at h
              dsimp only at h
              obtain ⟨hps, hfs, hlen, hmem⟩ := runFiles_spec w rest ps fs hrest
              have hpath : r.file_path = q :=
                (validate_example_good w.binaryExists (w.fileEnv q) q e r iv hv).1
              by_cases hs : r.success
              · rw [if_pos hs] at h
                cases h
                refine ⟨?_, hfs, ?_, ?_⟩
                · intro x hx
                  rcases List.mem_cons.mp hx with hx | hx
                  · subst hx; exact hs
                  · exact hps x hx
                · simp [Nat.succ_add, hlen]
                · intro x hx
                  have hx' : x = r ∨ x ∈ ps ∨ x ∈ f := by simpa using hx
                  rcases hx' with hx | hx | hx
                  · subst hx; simp [hpath]
                  · simp only [List.map_cons, List.mem_cons]
                    exact .inr (hmem x (List.mem_append.mpr (.inl hx)))
                  · simp only [List.map_cons, List.mem_cons]
                    exact .inr (hmem x (List.mem_append.mpr (.inr hx)))
              · rw [if_neg hs] at h
                cases h
                refine ⟨hps, ?_, ?_, ?_⟩
                · intro x hx
                  rcases List.mem_cons.mp hx with hx | hx
                  · subst hx; exact Bool.eq_false_iff.mpr hs
                  · exact hfs x hx
                · simp [← hlen]; omega
                · intro x hx
                  rcases List.mem_append.mp hx with hx | hx
                  · simp only [List.map_cons, List.mem_cons]
                    exact .inr (hmem x (List.mem_append.mpr (.inl hx)))
                  · rcases List.mem_cons.mp hx with hx | hx
                    · subst hx; simp [hpath]
                    · simp only [List.map_cons, List.mem_cons]
                      exact .inr (hmem x (List.mem_append.mpr (.inr hx)))

/-- C7: the passed and failed lists hold only successes respectively only
failures, their sizes sum to the number of files actually executed,
files skipped by the staleness decider appear in neither, and the report's
counts satisfy `passed + failed = validated`. -/
theorem c7_count_invariant (w : World) (manifest : List (String × ManifestEntry))
    (cache : Cache) (category : Option String) (singleFile : Option String)
    (force : Bool) (p f : List VResult)
    (h : validate_all_examples w manifest cache category singleFile force = .ok (p, f)) :
    (∀ r ∈ p, r.success = true) ∧ (∀ r ∈ f, r.success = false) ∧
    p.length + f.length =
      (plannedFiles w manifest cache category singleFile force).length ∧
    ((manifest.map Prod.fst).Nodup → singleFile = none →
      ∀ kv ∈ skippedFiles w manifest cache category force,
        ∀ r ∈ p ++ f, r.file_path ≠ kv.1) ∧
    (generate_report w p f).passed + (generate_report w p f).failed =
      (generate_report w p f).validated := by
  obtain ⟨hps, hfs, hlen, hmem⟩ := runFiles_spec w _ p f h
  refine ⟨hps, hfs, hlen, ?_, rfl⟩
  intro hnd hsingle kv hkv r hr heq
  subst hsingle
  have hrmem : r.file_path ∈ (filesToValidate w manifest cache category force).map Prod.fst := by
    simpa [plannedFiles] using hmem r hr
  obtain ⟨kv', hkv', hkv'eq⟩ := List.mem_map.mp hrmem
  have hkvm : kv ∈ manifest := (List.mem_filter.mp hkv).1
  have hkv'm : kv' ∈ manifest := (List.mem_filter.mp hkv').1
  have hkvkv' : kv' = kv :=
    List.inj_on_of_nodup_map hnd hkv'm hkvm (by rw [hkv'eq, heq])
  have h1 := (List.mem_filter.mp hkv).2
  have h2 := (List.mem_filter.mp hkv').2
  rw [hkvkv'] at h2
  simp only [skippedFiles, filesToValidate] at h1 h2
  simp only [Bool.and_eq_true, Bool.not_eq_true'] at h1 h2
  rw [h1.2] at h2
  exact absurd h2.2 (by simp)

/-- A fully passing outcome for file `"a"` under the default world. -/
def resPassA : VResult :=
  { file_path := "a", success := true, layer := 5, layers_passed := [1, 2, 3, 4, 5] }

/-- A fully passing outcome for file `"b"` under the default world. -/
def resPassB : VResult :=
  { file_path := "b", success := true, layer := 5, layers_passed := [1, 2, 3, 4, 5] }

/-- Witness for C7 at a concrete two-file run where everything passes. -/
theorem c7_witness :
    (∀ r ∈ ([resPassA, resPassB] : List VResult), r.success = true) ∧
    (∀ r ∈ ([] : List VResult), r.success = false) ∧
    ([resPassA, resPassB] : List VResult).length + ([] : List VResult).length =
      (plannedFiles {} manTwo {} none none false).length ∧
    ((manTwo.map Prod.fst).Nodup → (none : Option String) = none →
      ∀ kv ∈ skippedFiles {} manTwo {} none false,
        ∀ r ∈ ([resPassA, resPassB] : List VResult) ++ ([] : List VResult),
          r.file_path ≠ kv.1) ∧
    (generate_report {} [resPassA, resPassB] []).passed +
        (generate_report {} [resPassA, resPassB] []).failed =
      (generate_report {} [resPassA, resPassB] []).validated :=
  c7_count_invariant {} manTwo {} none none false [resPassA, resPassB] [] (by rfl)

/-! ## C3: the staleness decider -/

/-- C3 (amended): a manifest-listed file is skipped iff its cache entry
exists, its `content_hash` equals the fresh fingerprint, and its
`last_validated` is either empty/absent (the code then skips the age check
entirely) or parses to an age of at most 7 whole elapsed days
(`timedelta.days`, a floor — so ages up to just under 8 days still skip).
A missing cache entry, a changed fingerprint, or a non-empty unparseable
timestamp each force re-validation.  `--force` bypasses the decider: the
retained file set is every existing, category-matching manifest file,
independent of the cache. -/
theorem c3_staleness_decider :
    (∀ (w : World) (relPath : String)
        (manifest : List (String × ManifestEntry)) (cache : Cache),
      should_validate w relPath manifest cache = false ↔
        (relPath ∈ manifest.map Prod.fst ∧
         ∃ entry, lookupStr cache.files relPath = some entry ∧
           w.hashOf relPath = entry.content_hash ∧
           (entry.last_validated = "" ∨
            ∃ t, w.fromiso (pyReplace entry.last_validated "Z" "+00:00") = some t ∧
              (w.nowEpoch - t).fdiv 86400 ≤ 7))) ∧
    (∀ (w : World) (manifest : List (String × ManifestEntry)) (cache : Cache)
        (category : Option String),
      filesToValidate w manifest cache category true =
        manifest.filter (fun kv => w.fileExists kv.1 && categoryOk category kv.1)) := by
  constructor
  · intro w relPath manifest cache
    rw [should_validate]
    by_cases hmem : relPath ∈ manifest.map Prod.fst
    · rw [if_pos hmem]
      cases hlook : lookupStr cache.files relPath with
      | none => simp [hlook]
      | some entry =>
          simp only [hlook]
          by_cases hh : w.hashOf relPath = entry.content_hash
          · rw [hh]
            simp only [ne_eq, not_true_eq_false, if_false]
            by_cases hlv : entry.last_validated = ""
            · simp [hlv, hmem, hh]
            · simp only [hlv, ne_eq, not_false_eq_true, if_true]
              cases hpar : w.fromiso (pyReplace entry.last_validated "Z" "+00:00") with
              | none => simp [hpar, hlv, hmem, hh]
              | some t =>
                  simp [hpar, hlv, hmem, hh, decide_eq_false_iff_not, not_lt]
          · simp [hh, hmem]
    · rw [if_neg hmem]
      simp [hmem]
  · intro w manifest cache category
    apply List.filter_congr
    intro kv _
    simp

/-! ## C10: the decider never reads the cached result -/

/-- The age bound used by the freshness window. -/
theorem fdiv86400_le (x : Int) (h : x ≤ 7 * 86400) : x.fdiv 86400 ≤ 7 := by
  by_contra hlt
  push_neg at hlt
  have hm : 0 ≤ x.fmod 86400 := Int.fmod_nonneg' x (by norm_num)
  have heq := Int.fdiv_add_fmod x 86400
  nlinarith

/-- C10: `should_validate` never reads `validation_result` — any cache
entry (including one recording `'fail'`) with a matching fingerprint and a
timestamp parsing to at most 7 days of age is skipped. -/
theorem c10_result_blind_staleness (w : World) (relPath : String)
    (manifest : List (String × ManifestEntry)) (cache : Cache)
    (entry : CacheEntry) (t : Int)
    (hmem : relPath ∈ manifest.map Prod.fst)
    (hlook : lookupStr cache.files relPath = some entry)
    (hh : entry.content_hash = w.hashOf relPath)
    (hpar : w.fromiso (pyReplace entry.last_validated "Z" "+00:00") = some t)
    (hage : w.nowEpoch - t ≤ 7 * 86400) :
    should_validate w relPath manifest cache = false := by
  rw [should_validate, if_pos hmem]
  simp only [hlook, hh]
  simp only [ne_eq, not_true_eq_false, if_false]
  by_cases hlv : entry.last_validated = ""
  · simp [hlv]
  · simp only [hlv, ne_eq, not_false_eq_true, if_true, hpar]
    simp [not_lt.mpr (fdiv86400_le _ hage)]

/-- Witness for C10: an entry whose recorded `validation_result` is
`"fail"`, fingerprint-matching and one day old, is skipped. -/
theorem c10_witness :
    should_validate
      { hashOf := fun _ => "sha256:h",
        fromiso := fun s => if s = "2026-01-01T00:00:00+00:00" then some 0 else none,
        nowEpoch := 86400 }
      "docs_examples/a.wfl" manOne
      { files := [("docs_examples/a.wfl",
          { content_hash := "sha256:h",
            last_validated := "2026-01-01T00:00:00Z",
            validation_result := "fail" })] } = false :=
  c10_result_blind_staleness
    { hashOf := fun _ => "sha256:h",
      fromiso := fun s => if s = "2026-01-01T00:00:00+00:00" then some 0 else none,
      nowEpoch := 86400 }
    "docs_examples/a.wfl" manOne
    { files := [("docs_examples/a.wfl",
        { content_hash := "sha256:h",
          last_validated := "2026-01-01T00:00:00Z",
          validation_result := "fail" })] }
    { content_hash := "sha256:h",
      last_validated := "2026-01-01T00:00:00Z",
      validation_result := "fail" }
    0 (by decide) rfl rfl (by rfl) (by decide)

/-! ## C9: the cache updater's frame -/

theorem lookupStr_map_ne {α : Type} (l : List (String × α)) (k q : String) (v : α)
    (h : q ≠ k) :
    lookupStr (l.map (fun kv => if kv.1 = k then (k, v) else kv)) q =
      lookupStr l q := by
  induction l with
  | nil => rfl
  | cons hd tl ih =>
      obtain ⟨k0, v0⟩ := hd
      simp only [List.map_cons]
      dsimp only
      by_cases hk : k0 = k
      · rw [if_pos hk]
        simp only [lookupStr]
        rw [if_neg (fun hkq : k = q => h hkq.symm),
          if_neg (fun hkq : k0 = q => h (hk ▸ hkq).symm)]
        exact ih
      · rw [if_neg hk]
        simp only [lookupStr]
        by_cases hq : k0 = q
        · rw [if_pos hq, if_pos hq]
        · rw [if_neg hq, if_neg hq]
          exact ih

theorem lookupStr_map_self {α : Type} (l : List (String × α)) (k : String) (v : α)
    (h : l.any (fun kv => kv.1 = k) = true) :
    lookupStr (l.map (fun kv => if kv.1 = k then (k, v) else kv)) k = some v := by
  induction l with
  | nil => simp at h
  | cons hd tl ih =>
      obtain ⟨k0, v0⟩ := hd
      simp only [List.map_cons]
      dsimp only
      by_cases hk : k0 = k
      · rw [if_pos hk]
        simp [lookupStr]
      · rw [if_neg hk]
        simp only [lookupStr]
        rw [if_neg hk]
        exact ih (by simpa [List.any_cons, hk] using h)

theorem lookupStr_append_single {α : Type} (l : List (String × α)) (k q : String) (v : α)
    (h : l.any (fun kv => kv.1 = k) = false) :
    lookupStr (l ++ [(k, v)]) q = if q = k then some v else lookupStr l q := by
  induction l with
  | nil =>
      simp only [List.nil_append, lookupStr]
      by_cases hq : q = k
      · rw [if_pos hq.symm, if_pos hq]
      · rw [if_neg (fun hkq => hq hkq.symm), if_neg hq]
  | cons hd tl ih =>
      have hhd : hd.1 ≠ k := by
        intro hk
        simp [List.any_cons, hk] at h
      have htl : tl.any (fun kv => kv.1 = k) = false := by
        simpa [List.any_cons, hhd] using h
      simp only [List.cons_append, lookupStr]
      by_cases hq : hd.1 = q
      · rw [if_pos hq, if_pos hq, if_neg (by rw [← hq]; exact fun hqk => hhd hqk)]
      · rw [if_neg hq, if_neg hq]
        exact ih htl

/-- Python `dict` assignment through `lookupStr`. -/
theorem lookupStr_setAssoc {α : Type} (l : List (String × α)) (k q : String) (v : α) :
    lookupStr (setAssoc l k v) q = if q = k then some v else lookupStr l q := by
  rw [setAssoc]
  by_cases hany : l.any (fun kv => kv.1 = k) = true
  · rw [if_pos hany]
    by_cases hq : q = k
    · subst hq
      rw [if_pos rfl]
      exact lookupStr_map_self l q v hany
    · rw [if_neg hq]
      exact lookupStr_map_ne l k q v hq
  · rw [if_neg hany]
    exact lookupStr_append_single l k q v (Bool.eq_false_iff.mpr hany)

/-- Keys untouched by the update fold keep their binding. -/
theorem lookup_updateFold_not_mem (w : World) :
    ∀ (results : List VResult) (init : List (String × CacheEntry)) (q : String),
      q ∉ results.map VResult.file_path →
      lookupStr (results.foldl
        (fun fs r => setAssoc fs r.file_path (newCacheEntry w r)) init) q =
        lookupStr init q
  | [], init, q, _ => rfl
  | r :: rest, init, q, h => by
      have hq : q ≠ r.file_path := by
        intro hqq; exact h (by simp [hqq])
      have hrest : q ∉ rest.map VResult.file_path := by
        intro hm; exact h (by simp [hm])
      rw [List.foldl_cons,
        lookup_updateFold_not_mem w rest _ q hrest,
        lookupStr_setAssoc, if_neg hq]

/-- Every executed file's key ends up bound to its fresh entry. -/
theorem lookup_updateFold_mem (w : World) :
    ∀ (results : List VResult) (init : List (String × CacheEntry)) (r : VResult),
      (results.map VResult.file_path).Nodup → r ∈ results →
      lookupStr (results.foldl
        (fun fs r => setAssoc fs r.file_path (newCacheEntry w r)) init) r.file_path =
        some (newCacheEntry w r)
  | [], _, r, _, hr => absurd hr (by simp)
  | r0 :: rest, init, r, hnd, hr => by
      rw [List.map_cons, List.nodup_cons] at hnd
      rcases List.mem_cons.mp hr with hr | hr
      · subst hr
        rw [List.foldl_cons,
          lookup_updateFold_not_mem w rest _ r.file_path hnd.1,
          lookupStr_setAssoc, if_pos rfl]
      · rw [List.foldl_cons]
        exact lookup_updateFold_mem w rest _ r hnd.2 hr

/-- A staleness-skipped file's key never appears among the retained
(executed) files, given distinct manifest keys. -/
theorem skipped_key_not_planned (w : World)
    (manifest : List (String × ManifestEntry)) (cache : Cache)
    (category : Option String) (force : Bool)
    (hnd : (manifest.map Prod.fst).Nodup)
    (kv : String × ManifestEntry)
    (hkv : kv ∈ skippedFiles w manifest cache category force) :
    kv.1 ∉ (filesToValidate w manifest cache category force).map Prod.fst := by
  intro hmem
  obtain ⟨kv', hkv', hkeq⟩ := List.mem_map.mp hmem
  have hkvm : kv ∈ manifest := (List.mem_filter.mp hkv).1
  have hkv'm : kv' ∈ manifest := (List.mem_filter.mp hkv').1
  have hkvkv' : kv' = kv := List.inj_on_of_nodup_map hnd hkv'm hkvm hkeq
  have h1 := (List.mem_filter.mp hkv).2
  have h2 := (List.mem_filter.mp hkv').2
  rw [hkvkv'] at h2
  simp only [skippedFiles, filesToValidate] at h1 h2
  simp only [Bool.and_eq_true, Bool.not_eq_true'] at h1 h2
  rw [h1.2] at h2
  exact absurd h2.2 (by simp)

/-- C9: in a non-CI run the written cache binds every executed file's key
to the fresh entry (new fingerprint, timestamp, pass/fail result, duration
and `layers_passed`), leaves every non-executed key — in particular every
staleness-skipped file — bound exactly as in the cache the run loaded. -/
theorem c9_cache_update_frame (w : World)
    (manifestFile : Option (List (String × ManifestEntry)))
    (cacheFile : Option Cache) (args : Args) (o : MainOutcome)
    (m0 : List (String × ManifestEntry))
    (hci : args.ci = false)
    (hm : manifestFile = some m0)
    (hrun : runMain w manifestFile cacheFile args = .ok o) :
    ∃ c, o.cacheWritten = some c ∧
      (((o.passed ++ o.failed).map VResult.file_path).Nodup →
        ∀ r ∈ o.passed ++ o.failed,
          lookupStr c.files r.file_path = some (newCacheEntry w r)) ∧
      (∀ q, q ∉ (o.passed ++ o.failed).map VResult.file_path →
        lookupStr c.files q = lookupStr (loadedCache cacheFile args.force).files q) ∧
      ((loadedManifest m0 |>.map Prod.fst).Nodup → args.file = none →
        ∀ kv ∈ skippedFiles w (loadedManifest m0) (loadedCache cacheFile args.force)
            args.category args.force,
          lookupStr c.files kv.1 =
            lookupStr (loadedCache cacheFile args.force).files kv.1) := by
  subst hm
  simp only [runMain] at hrun
  cases hall : validate_all_examples w (loadedManifest m0)
      (loadedCache cacheFile args.force) args.category args.file args.force with
  | error e => rw [hall] at hrun; cases hrun
  | ok pf =>
      obtain ⟨p, f⟩ := pf
      rw [hall] at hrun
      dsimp only at hrun
      rw [hci] at hrun
      cases hrun
      refine ⟨_, rfl, ?_, ?_, ?_⟩
      · intro hnd r hr
        exact lookup_updateFold_mem w (p ++ f) _ r hnd hr
      · intro q hq
        exact lookup_updateFold_not_mem w (p ++ f) _ q hq
      · intro hndm hfile kv hkv
        refine lookup_updateFold_not_mem w (p ++ f) _ kv.1 ?_
        intro hmem
        obtain ⟨r, hr, hrpath⟩ := List.mem_map.mp hmem
        rw [hfile] at hall
        simp only [validate_all_examples] at hall
        have hspec := runFiles_spec w
          (plannedFiles w (loadedManifest m0) (loadedCache cacheFile args.force)
            args.category none args.force) p f hall
        have hrplanned := hspec.2.2.2 r hr
        rw [hrpath] at hrplanned
        exact skipped_key_not_planned w (loadedManifest m0)
          (loadedCache cacheFile args.force) args.category args.force hndm kv hkv
          (by simpa [plannedFiles] using hrplanned)

/-- A pre-existing cache entry for a file (`"z"`) that this run never
executes. -/
def cacheZ : Cache := { files := [("z", { content_hash := "sha256:z" })] }

/-- The outcome of the concrete non-CI run used to witness C9. -/
def outC9 : MainOutcome :=
  { exitCode := 0,
    cacheWritten := some
      { files := [("z", { content_hash := "sha256:z" }),
                  ("a", { validation_result := "pass", layers_passed := [1, 2, 3, 4, 5] }),
                  ("b", { validation_result := "pass", layers_passed := [1, 2, 3, 4, 5] })],
        wfl_version := some "unknown",
        last_full_validation := some "" },
    reportWritten := none,
    passed := [resPassA, resPassB],
    failed := [] }

/-- Witness for C9: a concrete non-CI run rewrites the two executed files'
entries and leaves the unexecuted `"z"` entry untouched. -/
theorem c9_witness :
    ∃ c, outC9.cacheWritten = some c ∧
      (((outC9.passed ++ outC9.failed).map VResult.file_path).Nodup →
        ∀ r ∈ outC9.passed ++ outC9.failed,
          lookupStr c.files r.file_path = some (newCacheEntry {} r)) ∧
      (∀ q, q ∉ (outC9.passed ++ outC9.failed).map VResult.file_path →
        lookupStr c.files q =
          lookupStr (loadedCache (some cacheZ) ({} : Args).force).files q) ∧
      ((loadedManifest manTwo |>.map Prod.fst).Nodup → ({} : Args).file = none →
        ∀ kv ∈ skippedFiles {} (loadedManifest manTwo)
            (loadedCache (some cacheZ) ({} : Args).force)
            ({} : Args).category ({} : Args).force,
          lookupStr c.files kv.1 =
            lookupStr (loadedCache (some cacheZ) ({} : Args).force).files kv.1) :=
  c9_cache_update_frame {} (some manTwo) (some cacheZ) {} outC9 manTwo rfl rfl (by rfl)
